import Mathlib

/-!
Shallow embedding of the execution and scheduling engine of the
crew-flow-manager backend, together with proofs checking the claims of
its specification against the code.

Embedded source files:
* `app/models/models.py` — `ExecutionStatus`, the `Execution` record.
* `app/services/flow_executor.py` — `FlowExecutor.execute_flow` and
  `FlowExecutor._execute_crewai_flow`.
* `app/services/scheduler.py` — `SchedulerService.add_job` and the
  positional argument binding of `_execute_scheduled_flow`'s call into
  `execute_flow`.
* `app/services/websocket_manager.py` — `WebSocketManager.broadcast`.
* `app/api/executions.py` — `create_execution`.

External effects (database commits, WebSocket sends) are modelled as an
ordered trace of effects; nondeterministic collaborators (the YAML
parser, the availability of the CrewAI package, the crew kickoff call)
are inputs of the model, collected in an `Env`.  Timestamps returned by
`datetime.utcnow()` are modelled as abstract ticks (`some 1` for
`started_at`, `some 2` for `completed_at`); log lines keep the Python
message text with the timestamp prefix dropped.
-/

namespace CrewFlow

/-! ## Data model (models.py) -/

/-- `ExecutionStatus` enum from models.py. -/
inductive ExecutionStatus
  | pending
  | running
  | success
  | failed
  | cancelled
deriving DecidableEq, Repr

/-- The result dictionary produced by `_execute_crewai_flow`. -/
structure CrewResult where
  result : String
  tasks_executed : Nat
  agents_used : Option Nat := none
  simulation : Bool := false
deriving DecidableEq, Repr

/-- The mutable columns of an `Execution` row that `execute_flow` touches.
All optional columns start out NULL (`none`); `status` defaults to
`PENDING` as in models.py. -/
structure ExecutionRecord where
  status : ExecutionStatus := .pending
  startedAt : Option Nat := none
  completedAt : Option Nat := none
  logs : Option (List String) := none
  outputs : Option CrewResult := none
  errorMessage : Option String := none
deriving DecidableEq, Repr

/-! ## Flow documents -/

/-- One entry of the `agents:` list of a parsed flow document.  Only the
fields `execute_flow` reads are kept. -/
structure AgentConfig where
  role : Option String := none
  allow_delegation : Bool := false
deriving DecidableEq, Repr

/-- One entry of the `tasks:` list of a parsed flow document. -/
structure TaskConfig where
  description : Option String := none
  agent : Option String := none
deriving DecidableEq, Repr

/-- A parsed flow document: `flow_config.get('agents', [])` and
`flow_config.get('tasks', [])`. -/
structure FlowConfig where
  agents : List AgentConfig := []
  tasks : List TaskConfig := []
deriving DecidableEq, Repr

/-! ## Python truthiness helpers -/

/-- Truthiness of an optional string: `None` and `""` are falsy. -/
def optStrTruthy : Option String → Bool
  | none => false
  | some s => !(s == "")

/-- Truthiness of an optional list/dict: `None` and `[]`/`{}` are falsy. -/
def optListTruthy {α : Type} : Option (List α) → Bool
  | none => false
  | some l => !l.isEmpty

/-! ## Environment: the engine's collaborators -/

/-- The nondeterministic collaborators of one `execute_flow` call: the
outcome of `yaml.safe_load(flow.yaml_content)`, whether importing the
CrewAI package succeeds, and the outcome of `crew.kickoff`. -/
structure Env where
  parseResult : Except String FlowConfig
  crewaiAvailable : Bool
  kickoffResult : Except String String

/-! ## FlowExecutor._execute_crewai_flow -/

/-- The roles for which an `Agent` is created: entries with a missing or
empty `role` are skipped (`if not role: continue`). -/
def agentRoles (agents_config : List AgentConfig) : List String :=
  agents_config.filterMap fun a =>
    match a.role with
    | none => none
    | some r => if r == "" then none else some r

/-- `[task for task in tasks if task.get('description') in selected_tasks]`. -/
def filterBySelected (tasks : List TaskConfig) (selected_tasks : Option (List String)) :
    List TaskConfig :=
  tasks.filter fun t =>
    match t.description with
    | some d => (selected_tasks.getD []).contains d
    | none => false

/-- The task-selection step shared by the real and the simulation path:
the filter only runs when `selected_tasks` is truthy (`if selected_tasks:`),
so `None` and the empty list both mean "take every task". -/
def selectTasks (tasks : List TaskConfig) (selected_tasks : Option (List String)) :
    List TaskConfig :=
  if optListTruthy selected_tasks then filterBySelected tasks selected_tasks else tasks

/-- A task configuration survives the task-creation loop when its
description and agent are truthy and the agent role was created
(`if not description or not agent_role: continue`,
`if agent_role not in agents: continue`). -/
def validTask (roles : List String) (t : TaskConfig) : Bool :=
  optStrTruthy t.description && optStrTruthy t.agent && roles.contains (t.agent.getD "")

/-- `FlowExecutor._execute_crewai_flow`.  Returns the result dictionary
together with the accumulated in-memory log list, or the text of a
raised exception.  The first branch is the real CrewAI path; the second
is the `except ImportError` simulation fallback. -/
def executeCrewaiFlow (env : Env) (flow_config : FlowConfig) (logs : List String)
    (selected_tasks : Option (List String)) :
    Except String (CrewResult × List String) :=
  if env.crewaiAvailable then
    let logs := logs ++ ["Parsing flow configuration..."]
    if flow_config.agents.isEmpty then
      .ok ({ result := "No agents to execute", tasks_executed := 0 },
           logs ++ ["No agents defined in flow"])
    else if flow_config.tasks.isEmpty then
      .ok ({ result := "No tasks to execute", tasks_executed := 0 },
           logs ++ ["No tasks defined in flow"])
    else
      let roles := agentRoles flow_config.agents
      let logs := logs ++ ["Creating agent(s)..."]
        ++ roles.map (fun r => "  - Created agent: " ++ r)
      let tasks_to_execute := selectTasks flow_config.tasks selected_tasks
      let logs := logs ++
        (if optListTruthy selected_tasks then ["Filtered to selected task(s)"] else [])
      let tasks := tasks_to_execute.filter (validTask roles)
      let logs := logs ++ ["Creating task(s)..."]
        ++ tasks.map (fun t => "  - Created task: " ++ (t.description.getD "").take 50 ++ "...")
      if tasks.isEmpty then
        .ok ({ result := "No valid tasks", tasks_executed := 0 },
             logs ++ ["No valid tasks to execute"])
      else
        let logs := logs ++ ["Starting crew execution..."]
        match env.kickoffResult with
        | .ok r =>
          .ok ({ result := r, tasks_executed := tasks.length,
                 agents_used := some roles.eraseDups.length },
               logs ++ ["Crew execution completed successfully"])
        | .error msg => .error msg
  else
    let logs := logs ++ ["CrewAI not available, using simulation mode",
                         "Simulating task execution..."]
    let tasks_to_simulate := selectTasks flow_config.tasks selected_tasks
    let logs := logs
      ++ tasks_to_simulate.map (fun t => "  - Simulated: " ++ (t.description.getD "Task").take 60 ++ "...")
      ++ ["Simulation completed"]
    .ok ({ result := "Simulated execution (CrewAI not installed)",
           tasks_executed := tasks_to_simulate.length, simulation := true }, logs)

/-! ## FlowExecutor.execute_flow -/

/-- One event payload sent through `websocket_manager.broadcast`. -/
structure Event where
  type : String
  status : String
  error : Option String := none
  hasOutputs : Bool := false
deriving DecidableEq, Repr

/-- One externally visible effect of `execute_flow`, in program order:
a `db.commit()` (with the record as committed) or a broadcast. -/
inductive Effect
  | commit (rec : ExecutionRecord)
  | publish (ev : Event)
deriving DecidableEq, Repr

/-- The header log lines built at the start of `execute_flow` before the
crew runs: the flow-name line plus one line per truthy override. -/
def headerLogs (flowName : String) (model_override llm_provider llm_base_url : Option String)
    (inputs : Option (List (String × String)))
    (selected_tasks : Option (List String)) : List String :=
  ["Starting flow execution: " ++ flowName]
  ++ (if optStrTruthy model_override then
        ["Using model override: " ++ model_override.getD ""] else [])
  ++ (if optStrTruthy llm_provider then
        ["LLM Provider: " ++ llm_provider.getD ""] else [])
  ++ (if optStrTruthy llm_base_url then
        ["LLM Base URL: " ++ llm_base_url.getD ""] else [])
  ++ (if optListTruthy inputs then ["Inputs: <dict>"] else [])
  ++ (if optListTruthy selected_tasks then
        ["Selected tasks: " ++ String.intercalate ", " (selected_tasks.getD [])] else [])

/-- `FlowExecutor.execute_flow`.  Takes the collaborators' outcomes, the
flow name, the looked-up execution row (`None` when the id is unknown)
and the call's optional parameters; returns the final stored record and
the ordered trace of commits and broadcasts.  Mirrors the Python method:
no busy-guard — the record, whatever its status, is unconditionally set
to RUNNING; on success, `logs` and `outputs` are assigned before the
commit; on any exception, the `except` block assigns only `status`,
`completed_at` and `error_message` (the in-memory log list is dropped). -/
def executeFlow (env : Env) (flowName : String) (exec0 : Option ExecutionRecord)
    (model_override llm_provider llm_base_url : Option String)
    (inputs : Option (List (String × String)))
    (selected_tasks : Option (List String)) :
    Option ExecutionRecord × List Effect :=
  match exec0 with
  | none => (none, [])
  | some e0 =>
    let e1 : ExecutionRecord := { e0 with status := .running, startedAt := some 1 }
    let runEffects : List Effect :=
      [.commit e1, .publish { type := "execution_update", status := "running" }]
    match env.parseResult with
    | .error msg =>
      let e2 : ExecutionRecord :=
        { e1 with status := .failed, completedAt := some 2, errorMessage := some msg }
      (some e2, runEffects ++
        [.commit e2,
         .publish { type := "execution_update", status := "failed", error := some msg }])
    | .ok flow_config =>
      let logs := headerLogs flowName model_override llm_provider llm_base_url
        inputs selected_tasks
      match executeCrewaiFlow env flow_config logs selected_tasks with
      | .ok (result, finalLogs) =>
        let e2 : ExecutionRecord :=
          { e1 with status := .success, completedAt := some 2,
                    logs := some finalLogs, outputs := some result }
        (some e2, runEffects ++
          [.commit e2,
           .publish { type := "execution_update", status := "success", hasOutputs := true }])
      | .error msg =>
        let e2 : ExecutionRecord :=
          { e1 with status := .failed, completedAt := some 2, errorMessage := some msg }
        (some e2, runEffects ++
          [.commit e2,
           .publish { type := "execution_update", status := "failed", error := some msg }])

/-- The statuses committed to the store, in commit order. -/
def commitStatuses (effs : List Effect) : List ExecutionStatus :=
  effs.filterMap fun e =>
    match e with
    | .commit r => some r.status
    | .publish _ => none

/-- The status strings broadcast to observers, in publish order. -/
def eventStatuses (effs : List Effect) : List String :=
  effs.filterMap fun e =>
    match e with
    | .commit _ => none
    | .publish ev => some ev.status

/-- The wire name of a status, as used in the broadcast payloads. -/
def statusEventName : ExecutionStatus → String
  | .pending => "pending"
  | .running => "running"
  | .success => "success"
  | .failed => "failed"
  | .cancelled => "cancelled"

/-! ## SchedulerService.add_job (scheduler.py) -/

/-- Python `str.split()` whitespace: space, tab, newline, carriage
return, vertical tab, form feed. -/
def pyWhitespace (c : Char) : Bool :=
  c == ' ' || c == '\t' || c == '\n' || c == '\r' || c == '\x0b' || c == '\x0c'

/-- Splitter for Python `s.split()`: walk the characters, accumulating
the current field (reversed) and flushing it at each whitespace run, so
no empty fields are produced. -/
def pyFields : List Char → List Char → List String
  | [], cur => if cur.isEmpty then [] else [String.mk cur.reverse]
  | c :: rest, cur =>
    if pyWhitespace c then
      (if cur.isEmpty then [] else [String.mk cur.reverse]) ++ pyFields rest []
    else pyFields rest (c :: cur)

/-- Python `s.split()` with no argument: split on whitespace runs,
discarding empty pieces. -/
def pySplit (s : String) : List String :=
  pyFields s.toList []

/-- The `ValueError` message raised by `add_job` on a wrong field count. -/
def invalidCronMessage : String :=
  "Invalid cron expression, must have 5 parts: minute hour day month day_of_week"

/-- A registered APScheduler job: its id and the five cron fields passed
to `CronTrigger`. -/
structure SchedulerJob where
  jobId : String
  fields : List String
deriving DecidableEq, Repr

/-- The outcome of `SchedulerService.add_job`. -/
inductive AddJobResult
  | schedulerNotRunning
  | invalidExpression (msg : String)
  | added
deriving DecidableEq, Repr

/-- `scheduler.add_job(..., replace_existing=True)`: any job with the
same id is replaced by the new registration. -/
def replaceJob (jobs : List SchedulerJob) (j : SchedulerJob) : List SchedulerJob :=
  (jobs.filter (fun k => k.jobId ≠ j.jobId)) ++ [j]

/-- `SchedulerService.add_job`: raises when the scheduler is not
running, splits the cron expression, rejects any field count other than
5 with a `ValueError`, then constructs `CronTrigger(minute=..., hour=...,
day=..., month=..., day_of_week=...)` — the APScheduler collaborator,
whose semantic validation of the five fields may itself raise
`ValueError` (e.g. an out-of-range minute), passed here as the
`cronTrigger` outcome function — and only on its success registers the
job under `schedule_{schedule_id}`.  Returns the outcome and the job
registry after the call. -/
def add_job (cronTrigger : List String → Except String Unit) (running : Bool)
    (jobs : List SchedulerJob) (schedule_id : Nat) (cron_expression : String) :
    AddJobResult × List SchedulerJob :=
  if !running then (.schedulerNotRunning, jobs)
  else
    let cron_parts := pySplit cron_expression
    if cron_parts.length ≠ 5 then (.invalidExpression invalidCronMessage, jobs)
    else
      match cronTrigger cron_parts with
      | .error msg => (.invalidExpression msg, jobs)
      | .ok _ =>
        (.added, replaceJob jobs
          { jobId := "schedule_" ++ toString schedule_id, fields := cron_parts })

/-- A `CronTrigger` collaborator that accepts every 5-field expression
(all fields semantically valid). -/
def acceptAllCron : List String → Except String Unit :=
  fun _ => .ok ()

/-! ## The scheduled-fire call into execute_flow (scheduler.py) -/

/-- A dynamically typed Python value, as far as the engine's optional
parameters are concerned. -/
inductive PyValue
  | pyNone
  | pyStr (s : String)
  | pyDict (entries : List (String × String))
deriving DecidableEq, Repr

/-- The optional parameters of `FlowExecutor.execute_flow`, after the
leading `(db, execution_id, flow)` arguments, each defaulting to
`None`. -/
structure ExecuteFlowCall where
  model_override : PyValue := .pyNone
  llm_provider : PyValue := .pyNone
  llm_base_url : PyValue := .pyNone
  inputs : PyValue := .pyNone
  selected_tasks : PyValue := .pyNone
deriving DecidableEq, Repr

/-- Python's positional binding of trailing arguments to
`execute_flow`'s optional parameters, in signature order
`model_override, llm_provider, llm_base_url, inputs, selected_tasks`;
parameters without an argument keep their `None` default. -/
def bindExecuteFlowArgs (args : List PyValue) : ExecuteFlowCall :=
  { model_override := args.getD 0 .pyNone
    llm_provider := args.getD 1 .pyNone
    llm_base_url := args.getD 2 .pyNone
    inputs := args.getD 3 .pyNone
    selected_tasks := args.getD 4 .pyNone }

/-- An optional string argument as a Python value. -/
def optStrVal : Option String → PyValue
  | none => .pyNone
  | some s => .pyStr s

/-- An optional dict argument as a Python value. -/
def optDictVal : Option (List (String × String)) → PyValue
  | none => .pyNone
  | some d => .pyDict d

/-- The call made by `SchedulerService._execute_scheduled_flow`:
`flow_executor.execute_flow(db, execution.id, flow, model_override, inputs)` —
two positional arguments after the leading three. -/
def scheduledExecuteFlowCall (model_override : Option String)
    (inputs : Option (List (String × String))) : ExecuteFlowCall :=
  bindExecuteFlowArgs [optStrVal model_override, optDictVal inputs]

/-! ## WebSocketManager.broadcast (websocket_manager.py) -/

/-- A connected WebSocket: an identity and whether `send_text` raises
for it during this broadcast. -/
structure WSConnection where
  id : Nat
  sendFails : Bool
deriving DecidableEq, Repr

/-- The send loop of `broadcast`: walks the connection list in order,
delivering to each connection whose send succeeds and collecting the
ones whose send raised into the `disconnected` list. -/
def broadcastSend : List WSConnection → List Nat × List WSConnection
  | [] => ([], [])
  | c :: rest =>
    let (delivered, disconnected) := broadcastSend rest
    if c.sendFails then (delivered, c :: disconnected)
    else (c.id :: delivered, disconnected)

/-- `WebSocketManager.disconnect`: remove the connection if present
(`if websocket in self.active_connections: ... .remove(websocket)`). -/
def wsDisconnect (active : List WSConnection) (c : WSConnection) : List WSConnection :=
  if active.contains c then active.erase c else active

/-- `WebSocketManager.broadcast`: returns the ids that received the
message, in delivery order, and the connection list after the
disconnect pass.  Send errors are caught inside the loop and never
escape the call. -/
def broadcast (active : List WSConnection) : List Nat × List WSConnection :=
  if active.isEmpty then ([], active)
  else
    let (delivered, disconnected) := broadcastSend active
    (delivered, disconnected.foldl wsDisconnect active)

/-! ## create_execution (api/executions.py) -/

/-- The columns of a `Flow` row that `create_execution` reads. -/
structure FlowRow where
  id : Nat
  is_valid : Bool
deriving DecidableEq, Repr

/-- A freshly inserted `Execution` row (status defaults to PENDING). -/
structure NewExecution where
  flow_id : Nat
  status : ExecutionStatus := .pending
deriving DecidableEq, Repr

/-- The outcome of the `POST /executions` handler. -/
inductive CreateExecutionResult
  | httpError (code : Nat) (detail : String)
  | created (execution : NewExecution)
deriving DecidableEq, Repr

/-- The 400 detail for an invalid flow. -/
def invalidFlowDetail : String :=
  "Cannot execute invalid flow. Please fix validation errors first."

/-- `create_execution`: look the flow up; 404 when absent; 400 when
`flow.is_valid` is falsy; otherwise insert a new pending `Execution`
row and schedule the background run. -/
def create_execution (flows : List FlowRow) (flow_id : Nat) : CreateExecutionResult :=
  match flows.find? (fun f => f.id == flow_id) with
  | none => .httpError 404 ("Flow with id " ++ toString flow_id ++ " not found")
  | some flow =>
    if !flow.is_valid then .httpError 400 invalidFlowDetail
    else .created { flow_id := flow_id }

/-! ## Observation helpers and concrete test fixtures -/

/-- The final stored status of a run. -/
def runStatus (p : Option ExecutionRecord × List Effect) : Option ExecutionStatus :=
  p.1.map (·.status)

/-- The `tasks_executed` entry of the final stored result, when any. -/
def runTasksExecuted (p : Option ExecutionRecord × List Effect) : Option Nat :=
  (p.1.bind (·.outputs)).map (·.tasks_executed)

/-- An execution row already finished with SUCCESS. -/
def successRecord : ExecutionRecord := { status := .success }

/-- The flow document of §8 of the spec: one agent `r`, one task `d`
assigned to `r`. -/
def demoConfig : FlowConfig :=
  { agents := [{ role := some "r" }],
    tasks := [{ description := some "d", agent := some "r" }] }

/-- Collaborators all succeeding: the document parses to `demoConfig`,
CrewAI imports, and the kickoff returns `"done"`. -/
def demoEnvOk : Env :=
  { parseResult := .ok demoConfig, crewaiAvailable := true, kickoffResult := .ok "done" }

/-- A run whose YAML parse raises with message `"boom"`. -/
def demoEnvFail : Env :=
  { parseResult := .error "boom", crewaiAvailable := true, kickoffResult := .ok "done" }

/-- A document with one task but an empty `agents:` list. -/
def noAgentsConfig : FlowConfig :=
  { agents := [], tasks := [{ description := some "d", agent := some "r" }] }

/-- The no-agents document with the CrewAI import failing, so the
simulation fallback runs. -/
def demoEnvSim : Env :=
  { parseResult := .ok noAgentsConfig, crewaiAvailable := false, kickoffResult := .ok "x" }

/-- The no-agents document with CrewAI available. -/
def demoEnvNoAgents : Env :=
  { parseResult := .ok noAgentsConfig, crewaiAvailable := true, kickoffResult := .ok "x" }

/-! ## Trace shape of execute_flow -/

/-- On a found record, `execute_flow` always produces exactly four
effects — commit Running, publish "running", commit a terminal record,
publish the matching terminal event — and the terminal commit on the
failure path leaves the `logs` column exactly as it was. -/
theorem executeFlow_shape (env : Env) (flowName : String) (e : ExecutionRecord)
    (mo lp lb : Option String) (ins : Option (List (String × String)))
    (sel : Option (List String)) :
    ∃ (e2 : ExecutionRecord) (ev2 : Event),
      executeFlow env flowName (some e) mo lp lb ins sel =
        (some e2,
         [.commit { e with status := .running, startedAt := some 1 },
          .publish { type := "execution_update", status := "running" },
          .commit e2, .publish ev2])
      ∧ (e2.status = .success ∨ e2.status = .failed)
      ∧ ev2.status = statusEventName e2.status
      ∧ e2.startedAt = some 1 ∧ e2.completedAt = some 2
      ∧ (e2.status = .failed → e2.logs = e.logs)
      ∧ (e2.status = .success → ∃ ls : List String, e2.logs = some ls) := by
  cases hp : env.parseResult with
  | error msg =>
    refine ⟨{ e with
              status := .failed, startedAt := some 1, completedAt := some 2,
              errorMessage := some msg },
            { type := "execution_update", status := "failed", error := some msg },
            ?_, Or.inr rfl, rfl, rfl, rfl, fun _ => rfl, fun hs => ExecutionStatus.noConfusion hs⟩
    simp [executeFlow, hp]
  | ok cfg =>
    cases hc : executeCrewaiFlow env cfg (headerLogs flowName mo lp lb ins sel) sel with
    | error msg =>
      refine ⟨{ e with
                status := .failed, startedAt := some 1, completedAt := some 2,
                errorMessage := some msg },
              { type := "execution_update", status := "failed", error := some msg },
              ?_, Or.inr rfl, rfl, rfl, rfl, fun _ => rfl, fun hs => ExecutionStatus.noConfusion hs⟩
      simp [executeFlow, hp, hc]
    | ok pr =>
      obtain ⟨result, finalLogs⟩ := pr
      refine ⟨{ e with
                status := .success, startedAt := some 1, completedAt := some 2,
                logs := some finalLogs, outputs := some result },
              { type := "execution_update", status := "success", hasOutputs := true },
              ?_, Or.inl rfl, rfl, rfl, rfl, fun hf => ExecutionStatus.noConfusion hf, fun _ => ⟨finalLogs, rfl⟩⟩
      simp [executeFlow, hp, hc]

/-! ## Broadcast loop lemmas -/

/-- The send loop delivers to exactly the non-failing connections, in
order, and collects exactly the failing ones. -/
theorem broadcastSend_eq (l : List WSConnection) :
    broadcastSend l
      = ((l.filter (fun c => !c.sendFails)).map (·.id), l.filter (·.sendFails)) := by
  induction l with
  | nil => rfl
  | cons c rest ih => cases hc : c.sendFails <;> simp [broadcastSend, ih, hc]

/-- `disconnect` is `List.erase`: the membership test only guards a
removal that is a no-op on a non-member anyway. -/
theorem wsDisconnect_eq_erase (a : List WSConnection) (c : WSConnection) :
    wsDisconnect a c = a.erase c := by
  by_cases h : a.contains c
  · rw [wsDisconnect, if_pos h]
  · rw [wsDisconnect, if_neg h, List.erase_of_not_mem (by simpa using h)]

/-- Folding `disconnect` over a removal list is list difference. -/
theorem foldl_wsDisconnect_eq (a d : List WSConnection) :
    d.foldl wsDisconnect a = a.diff d := by
  rw [List.diff_eq_foldl]
  induction d generalizing a with
  | nil => rfl
  | cons x xs ih => simp [List.foldl, wsDisconnect_eq_erase, ih]

/-! ## Claims -/

/-- C1, counterexample: `execute_flow` has no busy guard.  On an
execution whose stored status is terminal SUCCESS (so in particular not
Pending), a further `Run()` call does not fail with a Busy error — no
such error exists in the method — and does proceed to mutate the
execution: the stored record changes and commits are issued. -/
theorem claim1_counterexample :
    successRecord.status ≠ .pending
    ∧ (executeFlow demoEnvOk "t" (some successRecord) none none none none none).1
        ≠ some successRecord
    ∧ (executeFlow demoEnvOk "t" (some successRecord) none none none none none).2 ≠ [] := by
  decide

/-- C1, amended: `execute_flow` performs no double-invocation check.  A
`Run()` call on an execution whose status is not Pending proceeds
exactly like a first call: it commits a Running transition and then a
terminal one, mutating the execution instead of failing Busy. -/
theorem claim1_no_busy_guard (env : Env) (flowName : String) (e : ExecutionRecord)
    (mo lp lb : Option String) (ins : Option (List (String × String)))
    (sel : Option (List String)) (_hne : e.status ≠ .pending) :
    ∃ e2 : ExecutionRecord,
      (executeFlow env flowName (some e) mo lp lb ins sel).1 = some e2
      ∧ (e2.status = .success ∨ e2.status = .failed)
      ∧ commitStatuses (executeFlow env flowName (some e) mo lp lb ins sel).2
          = [.running, e2.status] := by
  obtain ⟨e2, ev2, heq, hterm, -⟩ := executeFlow_shape env flowName e mo lp lb ins sel
  refine ⟨e2, ?_, hterm, ?_⟩
  · rw [heq]
  · rw [heq]; simp [commitStatuses]

/-- C1, witness for the amended theorem at the SUCCESS record and the
all-good environment. -/
theorem claim1_witness :
    successRecord.status ≠ .pending
    ∧ ∃ e2 : ExecutionRecord,
        (executeFlow demoEnvOk "t" (some successRecord) none none none none none).1 = some e2
        ∧ (e2.status = .success ∨ e2.status = .failed)
        ∧ commitStatuses
            (executeFlow demoEnvOk "t" (some successRecord) none none none none none).2
            = [.running, e2.status] :=
  ⟨by decide,
   claim1_no_busy_guard demoEnvOk "t" successRecord none none none none none (by decide)⟩

/-- C2, counterexample: with a caller-supplied `selected_tasks = []`
(empty, non-null) on the one-agent/one-task document, the run ends
Success but with `tasks_executed = 1`, not `0`: the empty list is falsy
in `if selected_tasks:` so no filtering happens and every task runs. -/
theorem claim2_counterexample :
    runStatus (executeFlow demoEnvOk "t" (some {}) none none none none (some [])) = some .success
    ∧ runTasksExecuted (executeFlow demoEnvOk "t" (some {}) none none none none (some []))
        = some 1
    ∧ runTasksExecuted (executeFlow demoEnvOk "t" (some {}) none none none none (some []))
        ≠ some 0 := by
  decide

/-- C2, amended: `selected_tasks = []` is treated identically to
`selected_tasks = None` — both are falsy, so the filter never runs and
the whole task list executes; the run is still a Success, but
`tasks_executed` equals the number of tasks, not zero. -/
theorem claim2_empty_selection_is_no_filter (env : Env) (flowName : String)
    (exec0 : Option ExecutionRecord) (mo lp lb : Option String)
    (ins : Option (List (String × String))) :
    executeFlow env flowName exec0 mo lp lb ins (some [])
      = executeFlow env flowName exec0 mo lp lb ins none := by
  rfl

/-- C3, counterexample: statuses do regress out of a terminal state.
Starting from a stored SUCCESS record, a further `Run()` call (here one
whose document fails to parse) first commits Running — a transition out
of the terminal state — and then overwrites the terminal SUCCESS with
FAILED. -/
theorem claim3_counterexample :
    successRecord.status = .success
    ∧ commitStatuses
        (executeFlow demoEnvFail "t" (some successRecord) none none none none none).2
        = [.running, .failed]
    ∧ runStatus (executeFlow demoEnvFail "t" (some successRecord) none none none none none)
        = some .failed := by
  decide

/-- C3, amended: within a single `Run()` call starting from a Pending
record, the stored status sequence is exactly
Pending → Running → (Success|Failed) — Cancelled is never assigned —
but terminality is not enforced across calls: a later `Run()` on the
same id resets a terminal status to Running (see the counterexample). -/
theorem claim3_per_call_monotonic (env : Env) (flowName : String) (e : ExecutionRecord)
    (mo lp lb : Option String) (ins : Option (List (String × String)))
    (sel : Option (List String)) (hp : e.status = .pending) :
    ∃ t : ExecutionStatus,
      (t = .success ∨ t = .failed)
      ∧ e.status :: commitStatuses (executeFlow env flowName (some e) mo lp lb ins sel).2
          = [.pending, .running, t] := by
  obtain ⟨e2, ev2, heq, hterm, -⟩ := executeFlow_shape env flowName e mo lp lb ins sel
  refine ⟨e2.status, hterm, ?_⟩
  rw [heq, hp]
  simp [commitStatuses]

/-- C3, witness for the amended theorem on a fresh Pending record. -/
theorem claim3_witness :
    ∃ t : ExecutionStatus,
      (t = .success ∨ t = .failed)
      ∧ (ExecutionRecord.status {} : ExecutionStatus)
          :: commitStatuses (executeFlow demoEnvOk "t" (some {}) none none none none none).2
          = [.pending, .running, t] :=
  claim3_per_call_monotonic demoEnvOk "t" {} none none none none none rfl

/-- C4, counterexample: the transitions do not carry their log lines
into the store.  On a parse-failure run from a fresh record, the
terminal FAILED commit still has `logs = NULL`: the in-memory log list
(which already held the "Starting flow execution" header) is silently
dropped, and the Running commit also persisted no log line. -/
theorem claim4_counterexample :
    executeFlow demoEnvFail "t" (some {}) none none none none none =
      (some { status := .failed, startedAt := some 1, completedAt := some 2,
              errorMessage := some "boom" },
       [.commit { status := .running, startedAt := some 1 },
        .publish { type := "execution_update", status := "running" },
        .commit { status := .failed, startedAt := some 1, completedAt := some 2,
                  errorMessage := some "boom" },
        .publish { type := "execution_update", status := "failed", error := some "boom" }]) := by
  decide

/-- C4, amended: every transition publishes exactly one event, and only
after the corresponding commit — an observer never sees a status the
stored record does not yet reflect, and no committed transition skips
its event.  Log persistence, however, is not atomic with the
transitions: the Running commit carries the `logs` column unchanged,
and a FAILED terminal commit also leaves `logs` unchanged (the
in-memory lines are dropped); only a SUCCESS commit stores the log. -/
theorem claim4_commit_then_publish (env : Env) (flowName : String) (e : ExecutionRecord)
    (mo lp lb : Option String) (ins : Option (List (String × String)))
    (sel : Option (List String)) :
    ∃ (e2 : ExecutionRecord) (ev2 : Event),
      executeFlow env flowName (some e) mo lp lb ins sel =
        (some e2,
         [.commit { e with status := .running, startedAt := some 1 },
          .publish { type := "execution_update", status := "running" },
          .commit e2, .publish ev2])
      ∧ ev2.status = statusEventName e2.status
      ∧ ({ e with status := .running, startedAt := some 1 } : ExecutionRecord).logs = e.logs
      ∧ (e2.status = .failed → e2.logs = e.logs)
      ∧ (e2.status = .success → ∃ ls : List String, e2.logs = some ls) := by
  obtain ⟨e2, ev2, heq, -, hev, -, -, hfail, hsucc⟩ :=
    executeFlow_shape env flowName e mo lp lb ins sel
  exact ⟨e2, ev2, heq, hev, rfl, hfail, hsucc⟩

/-- C5, counterexample: a document with no agents does not always yield
`tasks_executed == 0`.  When the CrewAI import fails, the simulation
fallback never looks at the agents list: with zero agents and one task
it still reports Success with `tasks_executed = 1`. -/
theorem claim5_counterexample :
    noAgentsConfig.agents = []
    ∧ runStatus (executeFlow demoEnvSim "t" (some {}) none none none none none) = some .success
    ∧ runTasksExecuted (executeFlow demoEnvSim "t" (some {}) none none none none none) = some 1
    ∧ runTasksExecuted (executeFlow demoEnvSim "t" (some {}) none none none none none)
        ≠ some 0 := by
  decide

/-- C5, amended: for a document with no agents or no tasks the run
always terminates Success (never Failed), and `tasks_executed` is `0`
when the CrewAI backend imports; when the backend is unavailable the
simulation fallback instead reports the number of (selected) tasks, so
a no-agent document with tasks does not report zero. -/
theorem claim5_empty_document_success (env : Env) (flowName : String) (e : ExecutionRecord)
    (mo lp lb : Option String) (ins : Option (List (String × String)))
    (sel : Option (List String)) (cfg : FlowConfig)
    (hp : env.parseResult = .ok cfg) (hz : cfg.agents = [] ∨ cfg.tasks = []) :
    runStatus (executeFlow env flowName (some e) mo lp lb ins sel) = some .success
    ∧ runTasksExecuted (executeFlow env flowName (some e) mo lp lb ins sel)
        = some (if env.crewaiAvailable then 0 else (selectTasks cfg.tasks sel).length) := by
  cases hc : env.crewaiAvailable with
  | true =>
    rcases hz with hA | hT
    · simp [executeFlow, hp, executeCrewaiFlow, hc, hA, runStatus, runTasksExecuted]
    · by_cases hA2 : cfg.agents.isEmpty <;>
        simp [executeFlow, hp, executeCrewaiFlow, hc, hA2, hT,
              runStatus, runTasksExecuted]
  | false =>
    simp [executeFlow, hp, executeCrewaiFlow, hc, runStatus, runTasksExecuted]

/-- C5, witness: the no-agents document with CrewAI available yields
Success and zero tasks executed. -/
theorem claim5_witness :
    runStatus (executeFlow demoEnvNoAgents "t" (some {}) none none none none none)
      = some .success
    ∧ runTasksExecuted (executeFlow demoEnvNoAgents "t" (some {}) none none none none none)
        = some (if demoEnvNoAgents.crewaiAvailable then 0
                else (selectTasks noAgentsConfig.tasks none).length) :=
  claim5_empty_document_success demoEnvNoAgents "t" {} none none none none none
    noAgentsConfig rfl (Or.inl rfl)

/-- C6, confirmed: when the YAML parse raises, the run commits Running
and then FAILED with the parser's message stored in `error_message`;
the committed statuses are exactly [Running, Failed] and the broadcast
statuses exactly ["running", "failed"] — the failure is not swallowed
and no Running → Success transition is ever observed. -/
theorem claim6_parse_failure_fails (env : Env) (flowName : String) (e : ExecutionRecord)
    (mo lp lb : Option String) (ins : Option (List (String × String)))
    (sel : Option (List String)) (msg : String)
    (hp : env.parseResult = .error msg) :
    executeFlow env flowName (some e) mo lp lb ins sel =
      (some { e with
              status := .failed, startedAt := some 1, completedAt := some 2,
              errorMessage := some msg },
       [.commit { e with status := .running, startedAt := some 1 },
        .publish { type := "execution_update", status := "running" },
        .commit { e with
                  status := .failed, startedAt := some 1, completedAt := some 2,
                  errorMessage := some msg },
        .publish { type := "execution_update", status := "failed", error := some msg }])
    ∧ commitStatuses (executeFlow env flowName (some e) mo lp lb ins sel).2
        = [.running, .failed]
    ∧ eventStatuses (executeFlow env flowName (some e) mo lp lb ins sel).2
        = ["running", "failed"] := by
  have h1 : executeFlow env flowName (some e) mo lp lb ins sel =
      (some { e with
              status := .failed, startedAt := some 1, completedAt := some 2,
              errorMessage := some msg },
       [.commit { e with status := .running, startedAt := some 1 },
        .publish { type := "execution_update", status := "running" },
        .commit { e with
                  status := .failed, startedAt := some 1, completedAt := some 2,
                  errorMessage := some msg },
        .publish { type := "execution_update", status := "failed", error := some msg }]) := by
    simp [executeFlow, hp]
  refine ⟨h1, ?_, ?_⟩ <;> rw [h1] <;> simp [commitStatuses, eventStatuses]

/-- C6, witness at the parse-failing environment on a fresh record. -/
theorem claim6_witness :
    executeFlow demoEnvFail "t" (some {}) none none none none none =
      (some { status := .failed, startedAt := some 1, completedAt := some 2,
              errorMessage := some "boom" },
       [.commit { status := .running, startedAt := some 1 },
        .publish { type := "execution_update", status := "running" },
        .commit { status := .failed, startedAt := some 1, completedAt := some 2,
                  errorMessage := some "boom" },
        .publish { type := "execution_update", status := "failed", error := some "boom" }])
    ∧ commitStatuses (executeFlow demoEnvFail "t" (some {}) none none none none none).2
        = [.running, .failed]
    ∧ eventStatuses (executeFlow demoEnvFail "t" (some {}) none none none none none).2
        = ["running", "failed"] :=
  claim6_parse_failure_fails demoEnvFail "t" {} none none none none none "boom" rfl

/-- C7, confirmed: with the scheduler running, `add_job` accepts a cron
expression only if it splits into 5 whitespace-separated fields.  Any
other field count raises the `ValueError` naming the expected 5-field
format before the `CronTrigger` collaborator runs, leaving the registry
unchanged; every rejection (field count or `CronTrigger` semantic
validation) leaves the registry unchanged; and when the 5 fields also
pass the collaborator, the job is registered under
`schedule_{schedule_id}` with those fields. -/
theorem claim7_cron_field_count (cronTrigger : List String → Except String Unit)
    (jobs : List SchedulerJob) (schedule_id : Nat) (expr : String) :
    invalidCronMessage
      = "Invalid cron expression, must have 5 parts: minute hour day month day_of_week"
    ∧ ((pySplit expr).length ≠ 5 →
        add_job cronTrigger true jobs schedule_id expr
          = (.invalidExpression invalidCronMessage, jobs))
    ∧ ((add_job cronTrigger true jobs schedule_id expr).1 = .added →
        (pySplit expr).length = 5)
    ∧ (∀ m, (add_job cronTrigger true jobs schedule_id expr).1 = .invalidExpression m →
        (add_job cronTrigger true jobs schedule_id expr).2 = jobs)
    ∧ ((pySplit expr).length = 5 → cronTrigger (pySplit expr) = .ok () →
        (add_job cronTrigger true jobs schedule_id expr).1 = .added
        ∧ ({ jobId := "schedule_" ++ toString schedule_id, fields := pySplit expr }
            : SchedulerJob) ∈ (add_job cronTrigger true jobs schedule_id expr).2) := by
  refine ⟨rfl, fun h => ?_, fun hadd => ?_, fun m hm => ?_, fun h5 hok => ?_⟩
  · simp [add_job, h]
  · by_cases h5 : (pySplit expr).length = 5
    · exact h5
    · rw [add_job] at hadd
      simp only [if_pos rfl, if_neg, h5] at hadd
      simp [h5] at hadd
  · by_cases h5 : (pySplit expr).length = 5
    · cases ht : cronTrigger (pySplit expr) with
      | error s => simp [add_job, h5, ht]
      | ok u => simp [add_job, h5, ht] at hm
    · simp [add_job, h5]
  · constructor
    · simp [add_job, h5, hok]
    · simp [add_job, h5, hok, replaceJob]

/-- C7, witness: a 4-field expression is rejected with the registry
unchanged; a 5-field expression whose fields the `CronTrigger`
collaborator accepts is accepted and registered. -/
theorem claim7_witness :
    add_job acceptAllCron true [] 3 "* * * *" = (.invalidExpression invalidCronMessage, [])
    ∧ (add_job acceptAllCron true [] 3 "* * * * *").1 = .added
    ∧ ({ jobId := "schedule_" ++ toString 3, fields := pySplit "* * * * *" }
        : SchedulerJob) ∈ (add_job acceptAllCron true [] 3 "* * * * *").2 :=
  ⟨(claim7_cron_field_count acceptAllCron [] 3 "* * * *").2.1 (by decide),
   (claim7_cron_field_count acceptAllCron [] 3 "* * * * *").2.2.2.2 (by decide) rfl⟩

/-- C8, confirmed: for distinct connected observers, one `broadcast`
delivers the message to each non-failing observer exactly once, in
connection order; the observers whose send raised — and only those —
are removed from the connection set; and the failures never escape
`broadcast` (it is a total function, the send loop catches them). -/
theorem claim8_broadcast_isolation (active : List WSConnection)
    (h : (active.map (·.id)).Nodup) :
    (broadcast active).1 = (active.filter (fun c => !c.sendFails)).map (·.id)
    ∧ (broadcast active).2 = active.filter (fun c => !c.sendFails)
    ∧ (broadcast active).1.Nodup := by
  have hnd : active.Nodup := h.of_map
  have hsend := broadcastSend_eq active
  have hnodup : ((active.filter (fun c => !c.sendFails)).map (·.id)).Nodup :=
    h.sublist (active.filter_sublist.map _)
  cases ha : active.isEmpty with
  | true =>
    rw [List.isEmpty_iff] at ha
    subst ha
    exact ⟨rfl, rfl, List.nodup_nil⟩
  | false =>
    have h1 : broadcast active =
        ((active.filter (fun c => !c.sendFails)).map (·.id),
         (active.filter (·.sendFails)).foldl wsDisconnect active) := by
      simp [broadcast, ha, hsend]
    refine ⟨by rw [h1], ?_, by rw [h1]; exact hnodup⟩
    rw [h1, foldl_wsDisconnect_eq, hnd.diff_eq_filter]
    refine List.filter_congr fun c hc => ?_
    by_cases hf : c.sendFails <;> simp [List.mem_filter, hc, hf]

/-- C8, witness: three distinct observers, the middle one failing:
observers 1 and 3 each receive the message once and stay connected;
observer 2 is removed. -/
theorem claim8_witness :
    ((([⟨1, false⟩, ⟨2, true⟩, ⟨3, false⟩] : List WSConnection).map (·.id)).Nodup)
    ∧ (broadcast [⟨1, false⟩, ⟨2, true⟩, ⟨3, false⟩]).1
        = (([⟨1, false⟩, ⟨2, true⟩, ⟨3, false⟩] : List WSConnection).filter
            (fun c => !c.sendFails)).map (·.id)
    ∧ (broadcast [⟨1, false⟩, ⟨2, true⟩, ⟨3, false⟩]).2
        = ([⟨1, false⟩, ⟨2, true⟩, ⟨3, false⟩] : List WSConnection).filter
            (fun c => !c.sendFails)
    ∧ (broadcast [⟨1, false⟩, ⟨2, true⟩, ⟨3, false⟩]).1.Nodup :=
  ⟨by decide, claim8_broadcast_isolation [⟨1, false⟩, ⟨2, true⟩, ⟨3, false⟩] (by decide)⟩

/-- C9, confirmed: the scheduler's fire callback passes
`(model_override, inputs)` positionally after `(db, execution.id,
flow)`, so in `execute_flow`'s signature order the schedule's inputs
dictionary lands on the `llm_provider` parameter while the `inputs`
parameter (and `llm_base_url`, `selected_tasks`) keeps its `None`
default: a scheduled run executes with no input parameters no matter
what inputs the schedule stores. -/
theorem claim9_scheduled_inputs_misbound (model_override : Option String)
    (inputs : Option (List (String × String))) :
    (scheduledExecuteFlowCall model_override inputs).llm_provider = optDictVal inputs
    ∧ (scheduledExecuteFlowCall model_override inputs).inputs = .pyNone
    ∧ (scheduledExecuteFlowCall model_override inputs).model_override
        = optStrVal model_override
    ∧ (scheduledExecuteFlowCall model_override inputs).llm_base_url = .pyNone
    ∧ (scheduledExecuteFlowCall model_override inputs).selected_tasks = .pyNone :=
  ⟨rfl, rfl, rfl, rfl, rfl⟩

/-- C10, confirmed: `create_execution` on an existing flow with
`is_valid = False` answers 400 with the fixed detail and never reaches
the insert; conversely a created `Execution` row implies the flow was
found and valid. -/
theorem claim10_invalid_flow_rejected (flows : List FlowRow) (flow_id : Nat) :
    (∀ flow, flows.find? (fun f => f.id == flow_id) = some flow → flow.is_valid = false →
        create_execution flows flow_id = .httpError 400 invalidFlowDetail
        ∧ ∀ e, create_execution flows flow_id ≠ .created e)
    ∧ (∀ e, create_execution flows flow_id = .created e →
        ∃ flow, flows.find? (fun f => f.id == flow_id) = some flow
          ∧ flow.is_valid = true) := by
  constructor
  · intro flow hf hv
    have h1 : create_execution flows flow_id = .httpError 400 invalidFlowDetail := by
      simp [create_execution, hf, hv]
    exact ⟨h1, fun e he => by rw [h1] at he; exact CreateExecutionResult.noConfusion he⟩
  · intro e he
    unfold create_execution at he
    cases hf : flows.find? (fun f => f.id == flow_id) with
    | none =>
      simp only [hf] at he
      exact CreateExecutionResult.noConfusion he
    | some flow =>
      simp only [hf] at he
      cases hv : flow.is_valid with
      | false => rw [hv] at he; simp at he
      | true => exact ⟨flow, rfl, hv⟩

/-- C10, witness: a single invalid flow with id 5 is rejected with 400
and no row is created. -/
theorem claim10_witness :
    create_execution [{ id := 5, is_valid := false }] 5 = .httpError 400 invalidFlowDetail
    ∧ ∀ e, create_execution [{ id := 5, is_valid := false }] 5 ≠ .created e :=
  (claim10_invalid_flow_rejected [{ id := 5, is_valid := false }] 5).1
    { id := 5, is_valid := false } (by decide) rfl

end CrewFlow
